import Mathlib

/-!
The alsamidi module: the Device state machine over the ALSA sequencer

A shallow embedding of `src/alsamidi/alsamidi.c`.

* The ALSA library (sequencer sessions, queues, ports, the MIDI event codec)
  is external.  Every library call is appended to a log, and the value the
  library answers is read from an arbitrary answer function `ρ`, indexed by
  the position of the call in the log.  Theorems quantify over `ρ`, so they
  hold under every behaviour of the library, failures included.
* Pointers are `Option Nat`: `none` is `NULL`, `some h` a handle.  A handle
  returned by a successful open is the index of the opening call, hence new.
* C `int`/`long` values are `Int`; `size_t` and `unsigned char` values are
  `Nat` with the conversion written out (`toSizeT`, `toUChar`), for an LP64
  platform.
* A Python-level call ends in an `Outcome`: the returned object (or `NULL`),
  together with the error indicator it leaves set, or a memory fault.
* The Python runtime is taken not to run out of memory except where the
  source has a branch for it (`Device_new`, `PyList_Append` in
  `alsamidi_get_devices`), where the answer function decides.
* The timestamp of a received event is kept as the pair `(tv_sec, tv_nsec)`
  the source reads; the floating-point sum is not modelled.
-/

namespace Alsamidi

/-! ## Constants -/

/-- The `BUFFER_SIZE` of the source. -/
def BUFFER_SIZE : Nat := 1024

/-- ALSA: the queue id meaning direct, unqueued delivery. -/
def SND_SEQ_QUEUE_DIRECT : Nat := 253
/-- ALSA: the echo event type. -/
def SND_SEQ_EVENT_ECHO : Nat := 50
/-- ALSA: the destination client meaning all subscribers. -/
def SND_SEQ_ADDRESS_SUBSCRIBERS : Nat := 254
/-- ALSA: the unknown address. -/
def SND_SEQ_ADDRESS_UNKNOWN : Nat := 253
/-- ALSA port capability bits. -/
def SND_SEQ_PORT_CAP_READ : Nat := 1
def SND_SEQ_PORT_CAP_WRITE : Nat := 2
def SND_SEQ_PORT_CAP_SUBS_READ : Nat := 32
def SND_SEQ_PORT_CAP_SUBS_WRITE : Nat := 64
/-- ALSA: the application port type. -/
def SND_SEQ_PORT_TYPE_APPLICATION : Nat := 1048576
/-- ALSA open modes. -/
def SND_SEQ_OPEN_INPUT : Nat := 2
def SND_SEQ_OPEN_DUPLEX : Nat := 3
def SND_SEQ_NONBLOCK : Nat := 1
/-- The errno of "no space left", returned negated on an input overrun. -/
def ENOSPC : Int := 28

/-- Largest and smallest C `long` (LP64). -/
def LONG_MAX : Int := 9223372036854775807
def LONG_MIN : Int := -9223372036854775808

/-! ## Data model -/

/-- A pointer: `none` is `NULL`. -/
abbrev Ptr := Option Nat

/-- A sequencer address. -/
structure Addr where
  client : Nat
  port : Nat
  deriving DecidableEq, Repr

/-- The fields of `snd_seq_event_t` the source reads or writes, and the rest
of the event as a payload. -/
structure Event where
  type : Nat
  queue : Nat
  source : Addr
  dest : Addr
  tv_sec : Nat
  tv_nsec : Nat
  payload : List Nat
  deriving DecidableEq, Repr

/-- The `name` slot of a Device: a `NULL` pointer, the object `None`, or a
string. -/
inductive PyName
  | NULL
  | None
  | str (s : String)
  deriving DecidableEq, Repr

/-- The `Device` struct of the source. -/
structure Device where
  name : PyName
  client : Int
  port : Int
  is_input : Bool
  is_output : Bool
  is_connected : Bool
  _seq : Ptr
  _seq_port : Int
  _queue : Int
  _codec : Ptr
  deriving DecidableEq, Repr

/-- One call into the ALSA library, with its arguments. -/
inductive Call
  | seq_open (mode : Nat)
  | seq_close (seq : Ptr)
  | get_any_port_info (seq : Ptr) (client port : Int)
  | alloc_queue (seq : Ptr)
  | create_simple_port (seq : Ptr) (caps type : Nat)
  | connect_from (seq : Ptr) (myport client port : Int)
  | connect_to (seq : Ptr) (myport client port : Int)
  | get_port_info (seq : Ptr) (port : Int)
  | set_port_info (seq : Ptr) (port : Int) (timestamping : Bool) (queue : Int) (real : Bool)
  | start_queue (seq : Ptr) (queue : Int)
  | drain_output (seq : Ptr)
  | midi_event_new (bufsize : Nat)
  | midi_event_reset_encode (codec : Ptr)
  | midi_event_encode (codec : Ptr) (buf : List Nat)
  | event_output_direct (seq : Ptr) (ev : Event)
  | event_input_pending (seq : Ptr) (fetch : Nat)
  | event_input (seq : Ptr)
  | midi_event_reset_decode (codec : Ptr)
  | midi_event_decode (codec : Ptr) (count : Nat) (ev : Event)
  | query_next_client (seq : Ptr) (client : Int)
  | query_next_port (seq : Ptr) (client port : Int)
  deriving DecidableEq, Repr

/-- What the library answers to one call; a call reads the fields it needs.
`newFails` and `appendFails` decide the two Python allocations that follow a
port query in `alsamidi_get_devices`. -/
structure Resp where
  status : Int
  event : Event
  caps : Nat
  client : Int
  port : Int
  name : String
  bytes : List Nat
  newFails : Bool
  appendFails : Bool
  deriving DecidableEq, Repr

/-- The state outside the Device: the sessions that are open, every library
call made so far (oldest first), and the number of warnings emitted. -/
structure World where
  opened : List Nat
  log : List Call
  warnings : Nat
  deriving DecidableEq, Repr

/-- Python exception kinds that can be left in the error indicator. -/
inductive PyErr
  | DeviceError
  | TypeError
  | OverflowError
  | SystemError
  deriving DecidableEq, Repr

/-- Python objects handed back to the caller. -/
inductive PyValue
  | None
  | tuple (data : List Nat) (tv_sec tv_nsec : Nat)
  | list (devices : List Device)
  deriving DecidableEq, Repr

/-- How a method call ends: it returns `ret` (`none` is `NULL`) and leaves
`err` in the error indicator, or the process takes a memory fault. -/
inductive Outcome
  | returned (ret : Option PyValue) (err : Option PyErr)
  | fault
  deriving DecidableEq, Repr

/-- The call failed with a device error: `NULL` with `DeviceError` set. -/
def Outcome.isDeviceError (o : Outcome) : Bool :=
  o = .returned none (some .DeviceError)

/-- The call returned an object with no error pending. -/
def Outcome.isSuccess (o : Outcome) : Bool :=
  match o with
  | .returned (some _) none => true
  | _ => false

/-! ## The library boundary -/

/-- Make one library call: log it and read the answer for its position. -/
def call (ρ : Nat → Resp) (c : Call) (w : World) : Resp × World :=
  (ρ w.log.length, { w with log := w.log ++ [c] })

/-- The call `snd_seq_open`: on success a new session is open. -/
def snd_seq_open (ρ : Nat → Resp) (mode : Nat) (w : World) : Int × Ptr × World :=
  let (a, w1) := call ρ (.seq_open mode) w
  if a.status < 0 then (a.status, none, w1)
  else (a.status, some w.log.length, { w1 with opened := w.log.length :: w1.opened })

/-- The call `snd_seq_close`: the session is no longer open. -/
def snd_seq_close (ρ : Nat → Resp) (seq : Ptr) (w : World) : World :=
  let (_, w1) := call ρ (.seq_close seq) w
  match seq with
  | none => w1
  | some h => { w1 with opened := w1.opened.filter (fun k => k != h) }

/-- The call `snd_midi_event_new`: the codec pointer is `NULL` on failure. -/
def snd_midi_event_new (ρ : Nat → Resp) (bufsize : Nat) (w : World) : Ptr × World :=
  let (a, w1) := call ρ (.midi_event_new bufsize) w
  if a.status < 0 then (none, w1) else (some w.log.length, w1)

/-- Is the session behind this pointer open? -/
def sessionOpen (seq : Ptr) (w : World) : Bool :=
  match seq with
  | none => false
  | some h => w.opened.contains h

/-! ## Integer conversions -/

/-- Conversion of a C `long` to `size_t` (LP64). -/
def toSizeT (v : Int) : Nat := (v % 18446744073709551616).toNat

/-- Conversion of a `size_t` to `Py_ssize_t` (LP64). -/
def toSSizeT (n : Nat) : Int :=
  if n % 18446744073709551616 < 9223372036854775808 then (n % 18446744073709551616 : Nat)
  else ((n % 18446744073709551616 : Nat) : Int) - 18446744073709551616

/-- Conversion of a C `int` to `unsigned char`. -/
def toUChar (v : Int) : Nat := (v % 256).toNat

/-- The function `PyInt_AsLong` on a Python integer: the value, or an error
(`none`) when it does not fit a C `long`. -/
def PyInt_AsLong (v : Int) : Option Int :=
  if LONG_MIN ≤ v ∧ v ≤ LONG_MAX then some v else none

/-! ## The Device operations -/

/-- The object `PyType_GenericNew` allocates, every field zero.  The module
initialiser installs it as the `tp_new` of the type (source line 424), so
this is what a call of `alsamidi.Device(...)` starts from. -/
def PyType_GenericNew : Device :=
  { name := .NULL, client := 0, port := 0, is_input := false, is_output := false,
    is_connected := false, _seq := none, _seq_port := 0, _queue := 0, _codec := none }

/-- The object `Device_new` allocates; `alsamidi_get_devices` calls it
directly for each port it finds. -/
def Device_new : Device :=
  { name := .None, client := 0, port := 0, is_input := false, is_output := false,
    is_connected := false, _seq := none, _seq_port := 0,
    _queue := SND_SEQ_QUEUE_DIRECT, _codec := none }

/-- The initialiser: each of the three optional arguments overwrites its field
when it is given. -/
def Device_init (self : Device) (name : Option String) (client port : Option Int) : Device :=
  { self with
    name := (match name with
      | some n => .str n
      | none => self.name),
    client := client.getD self.client,
    port := port.getD self.port }

/-- Open a session; `NULL` (with a device error set) when the open fails. -/
def _open_sequencer (ρ : Nat → Resp) (mode : Nat) (w : World) : Ptr × World :=
  let (status, seq, w1) := snd_seq_open ρ mode w
  if status < 0 then (none, w1) else (seq, w1)

/-- Fetch the port info of the Device's client/port: the capability word of
the port, or `NULL` (with a device error set). -/
def _get_port_info (ρ : Nat → Resp) (self : Device) (w : World) : Option Nat × World :=
  let r := if self._seq = none then _open_sequencer ρ SND_SEQ_OPEN_INPUT w else (self._seq, w)
  let seq := r.1
  if seq = none then (none, r.2)
  else
    let q := call ρ (.get_any_port_info seq self.client self.port) r.2
    if q.1.status < 0 then
      (none, snd_seq_close ρ seq q.2)
    else
      (some q.1.caps, if seq ≠ self._seq then snd_seq_close ρ seq q.2 else q.2)

/-- Transfer the capabilities of a port to the Device's flags. -/
def _update_from_port_info (self : Device) (caps : Nat) : Device :=
  let self1 := { self with
    is_input := (caps &&& (SND_SEQ_PORT_CAP_READ ||| SND_SEQ_PORT_CAP_SUBS_READ)) != 0 }
  { self1 with
    is_output := (caps &&& (SND_SEQ_PORT_CAP_WRITE ||| SND_SEQ_PORT_CAP_SUBS_WRITE)) != 0 }

/-- The method `Device.probe`.  It returns `None` on every path; when the port
info could not be fetched the device error set by `_get_port_info` is left
pending in the error indicator. -/
def Device_probe (ρ : Nat → Resp) (self : Device) (w : World) : Outcome × Device × World :=
  let r := _get_port_info ρ self w
  match r.1 with
  | some caps => (.returned (some .None) none, _update_from_port_info self caps, r.2)
  | none => (.returned (some .None) (some .DeviceError), self, r.2)

/-- The middle of `Device.connect` (source lines 151-172): make the local
port, subscribe it to the wrapped device, and set it up to timestamp against
the Device's queue in real time.  No status is checked here. -/
def Device_connect_port (ρ : Nat → Resp) (self : Device) (w : World) : Device × World :=
  let r3 := call ρ (.create_simple_port self._seq
    (SND_SEQ_PORT_CAP_READ ||| SND_SEQ_PORT_CAP_SUBS_READ |||
      SND_SEQ_PORT_CAP_WRITE ||| SND_SEQ_PORT_CAP_SUBS_WRITE)
    SND_SEQ_PORT_TYPE_APPLICATION) w
  let self3 := { self with _seq_port := r3.1.status }
  let w4 := if self3.is_input then
      (call ρ (.connect_from self3._seq self3._seq_port self3.client self3.port) r3.2).2
    else r3.2
  let w5 := if self3.is_output then
      (call ρ (.connect_to self3._seq self3._seq_port self3.client self3.port) w4).2
    else w4
  let w6 := (call ρ (.get_port_info self3._seq self3._seq_port) w5).2
  let w7 := (call ρ (.set_port_info self3._seq self3._seq_port true self3._queue true) w6).2
  (self3, w7)

/-- The end of `Device.connect` (source lines 173-186): start the queue, flush,
allocate the codec and set `is_connected`. -/
def Device_connect_start (ρ : Nat → Resp) (self : Device) (w : World) :
    Outcome × Device × World :=
  let r8 := call ρ (.start_queue self._seq self._queue) w
  if r8.1.status < 0 then
    (.returned none (some .DeviceError), self, snd_seq_close ρ self._seq r8.2)
  else
    let w9 := (call ρ (.drain_output self._seq) r8.2).2
    let r10 := snd_midi_event_new ρ BUFFER_SIZE w9
    let self4 := { self with _codec := r10.1 }
    let self5 := { self4 with is_connected := true }
    (.returned (some .None) none, self5, r10.2)

/-- The method `Device.connect`. -/
def Device_connect (ρ : Nat → Resp) (self : Device) (w : World) : Outcome × Device × World :=
  if self.is_connected then (.returned (some .None) none, self, w)
  else
    let r1 := _open_sequencer ρ (SND_SEQ_OPEN_DUPLEX ||| SND_SEQ_NONBLOCK) w
    let self1 := { self with _seq := r1.1 }
    if self1._seq = none then (.returned none (some .DeviceError), self1, r1.2)
    else
      let r2 := call ρ (.alloc_queue self1._seq) r1.2
      let self2 := { self1 with _queue := r2.1.status }
      if self2._queue < 0 then
        (.returned none (some .DeviceError), self2, snd_seq_close ρ self2._seq r2.2)
      else
        let r3 := Device_connect_port ρ self2 r2.2
        Device_connect_start ρ r3.1 r3.2

/-- The packing loop of `Device.send`: `n` iterations are left, `i` is the
index of the next item, `midibuf` the contents of the static buffer. -/
def Device_send_pack (data : List Int) : Nat → Nat → (Nat → Nat) → Option (Nat → Nat)
  | 0, _, midibuf => some midibuf
  | n + 1, i, midibuf =>
    match PyInt_AsLong (data.getD i 0) with
    | none => none
    | some value =>
      Device_send_pack data n (i + 1)
        (fun j => if j = i then (Int.land value 0xFF).toNat else midibuf j)

/-- The method `Device.send`; `midibuf` is what the static buffer holds on
entry. -/
def Device_send (ρ : Nat → Resp) (midibuf : Nat → Nat) (self : Device) (data : List Int)
    (w : World) : Outcome × Device × World :=
  if !self.is_connected then (.returned none (some .DeviceError), self, w)
  else if !self.is_output then (.returned none (some .DeviceError), self, w)
  else
    let bytes0 := data.length
    let bytes := if bytes0 > BUFFER_SIZE then BUFFER_SIZE else bytes0
    match Device_send_pack data bytes 0 midibuf with
    | none => (.returned none (some .OverflowError), self, w)
    | some buf =>
      let w1 := (call ρ (.midi_event_reset_encode self._codec) w).2
      let (a, w2) := call ρ (.midi_event_encode self._codec ((List.range bytes).map buf)) w1
      if a.status < 0 then (.returned none (some .DeviceError), self, w2)
      else
        let event := a.event
        let event1 := if event.queue ≠ SND_SEQ_QUEUE_DIRECT then
            { event with queue := toUChar self._queue }
          else event
        let event2 := { event1 with
          source := { event1.source with port := toUChar self._seq_port } }
        let event3 := if event2.type ≠ SND_SEQ_EVENT_ECHO then
            { event2 with dest := ⟨SND_SEQ_ADDRESS_SUBSCRIBERS, SND_SEQ_ADDRESS_UNKNOWN⟩ }
          else event2
        let w3 := (call ρ (.event_output_direct self._seq event3) w2).2
        (.returned (some .None) none, self, w3)

/-- The function `PyList_New`: `NULL` on a negative size. -/
def PyList_New (n : Int) : Option (List Nat) :=
  if n < 0 then none else some (List.replicate n.toNat 0)

/-- The method `Device.receive`. -/
def Device_receive (ρ : Nat → Resp) (self : Device) (w : World) : Outcome × Device × World :=
  if !self.is_connected then (.returned none (some .DeviceError), self, w)
  else if !self.is_input then (.returned none (some .DeviceError), self, w)
  else
    let (a1, w1) := call ρ (.event_input_pending self._seq 1) w
    if a1.status ≤ 0 then (.returned (some .None) none, self, w1)
    else
      let (a2, w2) := call ρ (.event_input self._seq) w1
      if a2.status = -ENOSPC ∨ ¬ (a2.status < 0) then
        let w3 := if a2.status = -ENOSPC then { w2 with warnings := w2.warnings + 1 } else w2
        let event := a2.event
        let w4 := (call ρ (.midi_event_reset_decode self._codec) w3).2
        let (a5, w5) := call ρ (.midi_event_decode self._codec BUFFER_SIZE event) w4
        let bytes : Nat := toSizeT a5.status
        if bytes < 0 then (.returned none (some .DeviceError), self, w5)
        else
          match PyList_New (toSSizeT bytes) with
          | none => (.fault, self, w5)
          | some _ =>
            (.returned (some (.tuple ((List.range bytes).map (fun i => a5.bytes.getD i 0))
              event.tv_sec event.tv_nsec)) none, self, w5)
      else (.returned none (some .DeviceError), self, w2)

/-- The two nested loops of `alsamidi_get_devices`, one library query per
unit of fuel.  `inPorts` tells which loop test is next; `pc`, `pp` are the
client and port `port_info` holds; `lst` is the list built so far.  The
result is `none` when the fuel runs out, an early return (left), or the last
status and the list when the outer loop ends (right). -/
def get_devices_scan (ρ : Nat → Resp) (seq : Ptr) :
    Nat → Bool → Int → Int → Int → List Device → World →
      Option ((Outcome ⊕ (Int × List Device)) × World)
  | 0, _, _, _, _, _, _ => none
  | fuel + 1, false, ci, _, _, lst, w =>
    let (a, w1) := call ρ (.query_next_client seq ci) w
    if a.status ≥ 0 then get_devices_scan ρ seq fuel true a.client a.client (-1) lst w1
    else some (.inr (a.status, lst), w1)
  | fuel + 1, true, ci, pc, pp, lst, w =>
    let (a, w1) := call ρ (.query_next_port seq pc pp) w
    if a.status ≥ 0 then
      if a.newFails then get_devices_scan ρ seq fuel true ci a.client a.port lst w1
      else
        let device := _update_from_port_info
          { Device_new with name := .str a.name, client := a.client, port := a.port } a.caps
        if a.appendFails then
          some (.inl (.returned none (some .DeviceError)), snd_seq_close ρ seq w1)
        else get_devices_scan ρ seq fuel true ci a.client a.port (lst ++ [device]) w1
    else get_devices_scan ρ seq fuel false ci pc pp lst w1

/-- The module function `get_devices`; `none` when the fuel for the scan runs
out. -/
def alsamidi_get_devices (ρ : Nat → Resp) (fuel : Nat) (w : World) : Option (Outcome × World) :=
  let (seq, w1) := _open_sequencer ρ SND_SEQ_OPEN_INPUT w
  if seq = none then some (.returned none (some .DeviceError), w1)
  else
    match get_devices_scan ρ seq fuel false (-1) 0 0 [] w1 with
    | none => none
    | some (.inl o, w2) => some (o, w2)
    | some (.inr (status, lst), w2) =>
      if status < 0 ∧ lst.length = 0 then
        some (.returned none (some .DeviceError), snd_seq_close ρ seq w2)
      else some (.returned (some (.list lst)) none, snd_seq_close ρ seq w2)

/-! ## Drivers and sample environments -/

/-- Poll `Device.receive` `n` times in a row, collecting the outcomes. -/
def receive_repeat (ρ : Nat → Resp) : Nat → Device → World → List Outcome × Device × World
  | 0, d, w => ([], d, w)
  | n + 1, d, w =>
    let r := Device_receive ρ d w
    let rest := receive_repeat ρ n r.2.1 r.2.2
    (r.1 :: rest.1, rest.2.1, rest.2.2)

/-- One thing a caller does to a Device: one of the four methods (`send`
carries what its static buffer holds), or a write to one of the three
writable members. -/
inductive Op
  | probe
  | connect
  | send (midibuf : Nat → Nat) (data : List Int)
  | receive
  | set_name (v : PyName)
  | set_client (v : Int)
  | set_port (v : Int)

/-- The Device and the world after one such step, under the answers `ρ`. -/
def step (ρ : Nat → Resp) (op : Op) (d : Device) (w : World) : Device × World :=
  match op with
  | .probe => (Device_probe ρ d w).2
  | .connect => (Device_connect ρ d w).2
  | .send midibuf data => (Device_send ρ midibuf d data w).2
  | .receive => (Device_receive ρ d w).2
  | .set_name v => ({ d with name := v }, w)
  | .set_client v => ({ d with client := v }, w)
  | .set_port v => ({ d with port := v }, w)

/-- The states a Device can be in.  It starts, in any world, either from a
call of the type (`PyType_GenericNew`, then `Device_init`) or as an element
of the list `alsamidi_get_devices` builds (`Device_new` filled from the
answer to a port query); then comes any sequence of steps, each under any
answers. -/
inductive Reachable : Device → World → Prop
  | constructed (name : Option String) (client port : Option Int) (w : World) :
      Reachable (Device_init PyType_GenericNew name client port) w
  | enumerated (a : Resp) (w : World) :
      Reachable (_update_from_port_info
        { Device_new with name := .str a.name, client := a.client, port := a.port } a.caps) w
  | step (ρ : Nat → Resp) (op : Op) (d : Device) (w : World) :
      Reachable d w → Reachable (step ρ op d w).1 (step ρ op d w).2

/-- The position, in the log, of the start-queue call of a `connect` made on
the unconnected Device `d` in the world `w`: after the open, the queue
allocation, the port creation, one subscription per direction the Device
has, and the two port-info calls. -/
def startIndex (d : Device) (w : World) : Nat :=
  w.log.length + 5 + (if d.is_input then 1 else 0) + (if d.is_output then 1 else 0)

/-- The four private resources of a Device are valid all at once: the session
is open, the queue id and the local port id are not negative, and the codec
is allocated. -/
def allValid (d : Device) (w : World) : Bool :=
  sessionOpen d._seq w && decide (0 ≤ d._queue) && decide (0 ≤ d._seq_port) && d._codec.isSome

/-- An event with every field zero. -/
def zeroEvent : Event :=
  { type := 0, queue := 0, source := ⟨0, 0⟩, dest := ⟨0, 0⟩, tv_sec := 0, tv_nsec := 0,
    payload := [] }

/-- The answer "status `s`", with nothing else. -/
def answer (s : Int) : Resp :=
  { status := s, event := zeroEvent, caps := 0, client := 0, port := 0, name := "",
    bytes := [], newFails := false, appendFails := false }

/-- A library in which every call answers status 0. -/
def allZero : Nat → Resp := fun _ => answer 0

/-- A library whose successive calls answer the statuses of `l`, then 0. -/
def answers (l : List Int) : Nat → Resp := fun n => answer (l.getD n 0)

/-- A note-on event as the encoder produces it: queued, not yet addressed. -/
def noteOn : Event :=
  { type := 6, queue := 0, source := ⟨0, 0⟩, dest := ⟨0, 0⟩, tv_sec := 0, tv_nsec := 0,
    payload := [0, 0x40, 0x7F] }

/-- A library that encodes three bytes into `noteOn` at its third call and
answers 0 to every other call. -/
def encodesNoteOn : Nat → Resp :=
  fun n => if n = 2 then { answer 3 with event := noteOn } else answer 0

/-- A world with no session open and no call made. -/
def emptyWorld : World := { opened := [], log := [], warnings := 0 }

/-- A connected bidirectional Device on session 0, queue 1, local port 2. -/
def sampleConnected : Device :=
  { name := .None, client := 128, port := 0, is_input := true, is_output := true,
    is_connected := true, _seq := some 0, _seq_port := 2, _queue := 1, _codec := some 9 }

/-- A world in which session 0 is open. -/
def sampleWorld : World := { opened := [0], log := [.seq_open 3], warnings := 0 }

/-! ## Theorems -/

/-- Unless connected and an output, `send` fails at once with a device error. -/
theorem send_refused (ρ : Nat → Resp) (midibuf : Nat → Nat) (d : Device) (data : List Int)
    (w : World) (h : ¬ (d.is_connected = true ∧ d.is_output = true)) :
    Device_send ρ midibuf d data w = (.returned none (some .DeviceError), d, w) := by
  unfold Device_send
  by_cases hc : d.is_connected = true
  · have ho : d.is_output = false := by
      cases hout : d.is_output
      · rfl
      · exact absurd ⟨hc, hout⟩ h
    simp [hc, ho]
  · simp [hc]

/-- Unless connected and an input, `receive` fails at once with a device error. -/
theorem receive_refused (ρ : Nat → Resp) (d : Device) (w : World)
    (h : ¬ (d.is_connected = true ∧ d.is_input = true)) :
    Device_receive ρ d w = (.returned none (some .DeviceError), d, w) := by
  unfold Device_receive
  by_cases hc : d.is_connected = true
  · have hi : d.is_input = false := by
      cases hin : d.is_input
      · rfl
      · exact absurd ⟨hc, hin⟩ h
    simp [hc, hi]
  · simp [hc]

/-- C1: `Device.send` fails with a device error, leaving the Device and the world
(no library call, no session change) as they were, unless `is_connected` and
`is_output` are both set; `Device.receive` likewise unless `is_connected` and
`is_input` are both set. -/
theorem send_receive_require_connection (ρ : Nat → Resp) (midibuf : Nat → Nat) (d : Device)
    (data : List Int) (w : World) :
    (¬ (d.is_connected = true ∧ d.is_output = true) →
      Device_send ρ midibuf d data w = (.returned none (some .DeviceError), d, w)) ∧
    (¬ (d.is_connected = true ∧ d.is_input = true) →
      Device_receive ρ d w = (.returned none (some .DeviceError), d, w)) :=
  ⟨send_refused ρ midibuf d data w, receive_refused ρ d w⟩

/-- Witness for C1: the unconnected Device (client 128, port 0) of the spec's
scenario. -/
theorem send_receive_require_connection_witness :
    Device_send allZero (fun _ => 0) (Device_init Device_new none (some 128) (some 0))
        [0x90, 0x40, 0x7F] emptyWorld
      = (.returned none (some .DeviceError),
          Device_init Device_new none (some 128) (some 0), emptyWorld) ∧
    Device_receive allZero (Device_init Device_new none (some 128) (some 0)) emptyWorld
      = (.returned none (some .DeviceError),
          Device_init Device_new none (some 128) (some 0), emptyWorld) :=
  ⟨(send_receive_require_connection allZero (fun _ => 0)
      (Device_init Device_new none (some 128) (some 0)) [0x90, 0x40, 0x7F] emptyWorld).1
      (by decide),
   (send_receive_require_connection allZero (fun _ => 0)
      (Device_init Device_new none (some 128) (some 0)) [0x90, 0x40, 0x7F] emptyWorld).2
      (by decide)⟩

/-! ### Library calls -/

@[simp] theorem call_opened (ρ : Nat → Resp) (c : Call) (w : World) :
    (call ρ c w).2.opened = w.opened := rfl

@[simp] theorem call_log (ρ : Nat → Resp) (c : Call) (w : World) :
    (call ρ c w).2.log = w.log ++ [c] := rfl

@[simp] theorem call_warnings (ρ : Nat → Resp) (c : Call) (w : World) :
    (call ρ c w).2.warnings = w.warnings := rfl

@[simp] theorem call_answer (ρ : Nat → Resp) (c : Call) (w : World) :
    (call ρ c w).1 = ρ w.log.length := rfl

/-! ### The packing loop of `send` -/

theorem ldiff_255 (n : Nat) : Nat.ldiff 255 n = 255 - n % 256 := by
  apply Nat.eq_of_testBit_eq
  intro i
  rw [Nat.testBit_ldiff]
  have h1 : (255 : Nat) = 2 ^ 8 - 1 := by norm_num
  have h2 : 255 - n % 256 = 2 ^ 8 - (n % 2 ^ 8 + 1) := by omega
  rw [h2, Nat.testBit_two_pow_sub_succ (Nat.mod_lt _ (by norm_num)), h1,
    Nat.testBit_two_pow_sub_one, Nat.testBit_mod_two_pow]
  by_cases hi : i < 8 <;> simp [hi]

/-- On a C `long`, `value & 0xFF` is the value modulo 256. -/
theorem land_255 (v : Int) : Int.land v 0xFF = v % 256 := by
  cases v with
  | ofNat n =>
    show ((n &&& 255 : Nat) : Int) = (n : Int) % 256
    have : n &&& 255 = n % 256 := Nat.and_pow_two_sub_one_eq_mod n 8
    rw [this]; norm_cast
  | negSucc n =>
    show ((Nat.ldiff 255 n : Nat) : Int) = Int.negSucc n % 256
    rw [ldiff_255, Int.negSucc_emod n (by norm_num : (0:Int) < 256)]
    omega

theorem PyInt_AsLong_some (v x : Int) (h : PyInt_AsLong v = some x) : x = v := by
  unfold PyInt_AsLong at h
  split_ifs at h
  exact (Option.some.inj h).symm

/-- What the packing loop leaves in the buffer. -/
theorem pack_spec (data : List Int) :
    ∀ (n i : Nat) (m f : Nat → Nat), Device_send_pack data n i m = some f →
      ∀ j, f j = if i ≤ j ∧ j < i + n then (data.getD j 0 % 256).toNat else m j := by
  intro n
  induction n with
  | zero =>
    intro i m f h j
    rw [Device_send_pack] at h
    cases h
    have hn : ¬ (i ≤ j ∧ j < i + 0) := by omega
    rw [if_neg hn]
  | succ n ih =>
    intro i m f h j
    rw [Device_send_pack] at h
    cases hv : PyInt_AsLong (data.getD i 0) with
    | none => rw [hv] at h; exact absurd h (by simp)
    | some value =>
      rw [hv] at h
      dsimp only at h
      have hval := PyInt_AsLong_some _ _ hv
      rw [ih (i + 1) _ f h j, land_255, hval]
      by_cases hji : j = i
      · subst hji
        simp
      · by_cases h1 : i + 1 ≤ j ∧ j < i + 1 + n
        · have h2 : i ≤ j ∧ j < i + (n + 1) := by omega
          simp [h1, h2]
        · have h2 : ¬ (i ≤ j ∧ j < i + (n + 1)) := by omega
          simp [h1, h2, hji]

/-- The packing loop succeeds when every item it reads fits a C `long`. -/
theorem pack_total (data : List Int) :
    ∀ (n i : Nat) (m : Nat → Nat),
      (∀ j, i ≤ j → j < i + n → LONG_MIN ≤ data.getD j 0 ∧ data.getD j 0 ≤ LONG_MAX) →
      ∃ f, Device_send_pack data n i m = some f := by
  intro n
  induction n with
  | zero => intro i m _; exact ⟨m, rfl⟩
  | succ n ih =>
    intro i m h
    have hi := h i (le_refl i) (by omega)
    have hv : PyInt_AsLong (data.getD i 0) = some (data.getD i 0) := by
      unfold PyInt_AsLong
      rw [if_pos hi]
    rw [Device_send_pack, hv]
    exact ih (i + 1) _ (fun j h1 h2 => h j (by omega) (by omega))

/-- The packing loop reads only the items at the indices it runs over. -/
theorem pack_congr (data data2 : List Int) :
    ∀ (n i : Nat) (m : Nat → Nat),
      (∀ j, i ≤ j → j < i + n → data.getD j 0 = data2.getD j 0) →
      Device_send_pack data n i m = Device_send_pack data2 n i m := by
  intro n
  induction n with
  | zero => intro i m _; rfl
  | succ n ih =>
    intro i m h
    rw [Device_send_pack, Device_send_pack, h i (le_refl i) (by omega)]
    cases PyInt_AsLong (data2.getD i 0) with
    | none => rfl
    | some value => exact ih (i + 1) _ (fun j h1 h2 => h j (by omega) (by omega))

/-- The bytes handed on after a successful packing. -/
theorem pack_buffer (data : List Int) (bytes : Nat) (hb : bytes ≤ data.length) (m f : Nat → Nat)
    (h : Device_send_pack data bytes 0 m = some f) :
    (List.range bytes).map f = (data.take bytes).map (fun v => (v % 256).toNat) := by
  apply List.ext_getElem
  · simp [hb]
  · intro j h1 h2
    simp only [List.length_map, List.length_range] at h1
    simp only [List.getElem_map, List.getElem_range, List.getElem_take]
    rw [pack_spec data bytes 0 m f h j]
    have : 0 ≤ j ∧ j < 0 + bytes := by omega
    rw [if_pos this, List.getD_eq_getElem _ _ (by omega)]

/-- The number of bytes `send` packs: the length of the sequence, capped. -/
theorem send_bytes (data : List Int) :
    (if data.length > BUFFER_SIZE then BUFFER_SIZE else data.length) = min data.length 1024 := by
  unfold BUFFER_SIZE
  split_ifs <;> omega

/-- A call of `send` on a connected output Device whose packing succeeds. -/
theorem send_packed (ρ : Nat → Resp) (midibuf f : Nat → Nat) (d : Device) (data : List Int)
    (w : World) (hc : d.is_connected = true) (ho : d.is_output = true)
    (hp : Device_send_pack data (min data.length 1024) 0 midibuf = some f) :
    Device_send ρ midibuf d data w =
      if (ρ (w.log.length + 1)).status < 0 then
        (.returned none (some .DeviceError), d,
          { w with log := w.log ++ [.midi_event_reset_encode d._codec,
              .midi_event_encode d._codec ((List.range (min data.length 1024)).map f)] })
      else
        (.returned (some .None) none, d,
          { w with log := w.log ++ [.midi_event_reset_encode d._codec,
              .midi_event_encode d._codec ((List.range (min data.length 1024)).map f),
              .event_output_direct d._seq
                { type := (ρ (w.log.length + 1)).event.type,
                  queue := if (ρ (w.log.length + 1)).event.queue ≠ SND_SEQ_QUEUE_DIRECT then
                      toUChar d._queue else (ρ (w.log.length + 1)).event.queue,
                  source := ⟨(ρ (w.log.length + 1)).event.source.client, toUChar d._seq_port⟩,
                  dest := if (ρ (w.log.length + 1)).event.type ≠ SND_SEQ_EVENT_ECHO then
                      ⟨SND_SEQ_ADDRESS_SUBSCRIBERS, SND_SEQ_ADDRESS_UNKNOWN⟩
                    else (ρ (w.log.length + 1)).event.dest,
                  tv_sec := (ρ (w.log.length + 1)).event.tv_sec,
                  tv_nsec := (ρ (w.log.length + 1)).event.tv_nsec,
                  payload := (ρ (w.log.length + 1)).event.payload }] }) := by
  unfold Device_send
  dsimp only
  rw [send_bytes, hp]
  simp only [hc, ho, Bool.not_true, Bool.false_eq_true, if_false, call_answer, call_log,
    List.length_append, List.length_singleton]
  by_cases hs : (ρ (w.log.length + 1)).status < 0
  · simp [hs, call]
  · simp only [hs, if_false]
    by_cases hq : (ρ (w.log.length + 1)).event.queue = SND_SEQ_QUEUE_DIRECT <;>
    by_cases ht : (ρ (w.log.length + 1)).event.type = SND_SEQ_EVENT_ECHO <;>
    simp [hq, ht, call]

/-- A call of `send` on a connected output Device whose packing fails. -/
theorem send_unpacked (ρ : Nat → Resp) (midibuf : Nat → Nat) (d : Device) (data : List Int)
    (w : World) (hc : d.is_connected = true) (ho : d.is_output = true)
    (hp : Device_send_pack data (min data.length 1024) 0 midibuf = none) :
    Device_send ρ midibuf d data w = (.returned none (some .OverflowError), d, w) := by
  unfold Device_send
  dsimp only
  rw [send_bytes, hp]
  simp [hc, ho]

/-- Whether the packing loop fails does not depend on the buffer's contents. -/
theorem pack_none (data : List Int) :
    ∀ (n i : Nat) (m m2 : Nat → Nat),
      Device_send_pack data n i m = none → Device_send_pack data n i m2 = none := by
  intro n
  induction n with
  | zero => intro i m m2 h; rw [Device_send_pack] at h; exact absurd h (by simp)
  | succ n ih =>
    intro i m m2 h
    rw [Device_send_pack] at h ⊢
    cases hv : PyInt_AsLong (data.getD i 0) with
    | none => rfl
    | some value =>
      rw [hv] at h
      exact ih (i + 1) _ _ h

theorem take_getD (data : List Int) (j : Nat) (hj : j < 1024) :
    (data.take 1024).getD j 0 = data.getD j 0 := by
  simp only [List.getD_eq_getElem?_getD, List.getElem?_take, if_pos hj]

theorem take_length_min (data : List Int) :
    min (data.take 1024).length 1024 = min data.length 1024 := by
  rw [List.length_take]
  omega

theorem take_min (data : List Int) : data.take (min data.length 1024) = data.take 1024 := by
  rw [List.take_eq_take]
  omega

/-- C2: on a connected output Device, every buffer `send` hands to the encoder has
length `min |S| 1024` and its `i`-th byte is `S[i]` modulo 256; the encoder is
handed that buffer whenever the items packed fit a C `long`; and the whole
call depends on the first 1024 items of `S` only (nor on what the static buffer
held before). -/
theorem send_packs_first_1024 (ρ : Nat → Resp) (midibuf : Nat → Nat) (d : Device)
    (data : List Int) (w : World) (hc : d.is_connected = true) (ho : d.is_output = true) :
    (∀ codec buf,
      Call.midi_event_encode codec buf ∈
        (Device_send ρ midibuf d data w).2.2.log.drop w.log.length →
      buf.length = min data.length 1024 ∧
      ∀ i, i < min data.length 1024 → ((buf.getD i 0 : Nat) : Int) = data.getD i 0 % 256) ∧
    ((∀ x ∈ data.take 1024, LONG_MIN ≤ x ∧ x ≤ LONG_MAX) →
      Call.midi_event_encode d._codec ((data.take 1024).map (fun v => (v % 256).toNat)) ∈
        (Device_send ρ midibuf d data w).2.2.log.drop w.log.length) ∧
    Device_send ρ midibuf d data w = Device_send ρ midibuf d (data.take 1024) w ∧
    (∀ midibuf2, Device_send ρ midibuf d data w = Device_send ρ midibuf2 d data w) := by
  have hmin : min data.length 1024 ≤ data.length := Nat.min_le_left _ _
  refine ⟨?_, ?_, ?_, ?_⟩
  · intro codec buf hmem
    cases hp : Device_send_pack data (min data.length 1024) 0 midibuf with
    | none =>
      rw [send_unpacked ρ midibuf d data w hc ho hp] at hmem
      simp at hmem
    | some f =>
      have hB := pack_buffer data _ hmin midibuf f hp
      rw [send_packed ρ midibuf f d data w hc ho hp, hB, take_min] at hmem
      have hbuf : buf = (data.take 1024).map (fun v => (v % 256).toNat) := by
        generalize (data.take 1024).map (fun v => (v % 256).toNat) = B at hmem ⊢
        split_ifs at hmem <;> simp at hmem <;> exact hmem.2
      subst hbuf
      refine ⟨by simp [Nat.min_comm], ?_⟩
      intro i hi
      have h1 : i < 1024 := lt_of_lt_of_le hi (Nat.min_le_right _ _)
      have h2 : i < data.length := lt_of_lt_of_le hi hmin
      have h3 : i < (data.take 1024).length := by rw [List.length_take]; omega
      rw [List.getD_eq_getElem _ _ (by simpa using h3), List.getElem_map, List.getElem_take,
        List.getD_eq_getElem _ _ h2]
      exact Int.toNat_of_nonneg (Int.emod_nonneg _ (by norm_num))
  · intro hr
    have hall : ∀ j, 0 ≤ j → j < 0 + min data.length 1024 →
        LONG_MIN ≤ data.getD j 0 ∧ data.getD j 0 ≤ LONG_MAX := by
      intro j _ hj
      have h1 : j < 1024 := by omega
      have h2 : j < data.length := by omega
      rw [List.getD_eq_getElem _ _ h2]
      apply hr
      rw [List.mem_take_iff_getElem]
      exact ⟨j, by omega, rfl⟩
    obtain ⟨f, hp⟩ := pack_total data _ 0 midibuf hall
    have hB := pack_buffer data _ hmin midibuf f hp
    rw [send_packed ρ midibuf f d data w hc ho hp, hB, take_min]
    generalize (data.take 1024).map (fun v => (v % 256).toNat) = B
    split_ifs <;> simp
  · have hcg : Device_send_pack (data.take 1024) (min data.length 1024) 0 midibuf =
        Device_send_pack data (min data.length 1024) 0 midibuf :=
      pack_congr _ _ _ 0 midibuf (fun j _ hj => take_getD data j (by omega))
    cases hp : Device_send_pack data (min data.length 1024) 0 midibuf with
    | none =>
      rw [send_unpacked ρ midibuf d data w hc ho hp,
        send_unpacked ρ midibuf d (data.take 1024) w hc ho
          (by rw [take_length_min, hcg]; exact hp)]
    | some f =>
      rw [send_packed ρ midibuf f d data w hc ho hp,
        send_packed ρ midibuf f d (data.take 1024) w hc ho
          (by rw [take_length_min, hcg]; exact hp), take_length_min]
  · intro midibuf2
    cases hp : Device_send_pack data (min data.length 1024) 0 midibuf with
    | none =>
      rw [send_unpacked ρ midibuf d data w hc ho hp,
        send_unpacked ρ midibuf2 d data w hc ho (pack_none data _ 0 midibuf midibuf2 hp)]
    | some f =>
      cases hq : Device_send_pack data (min data.length 1024) 0 midibuf2 with
      | none =>
        rw [pack_none data _ 0 midibuf2 midibuf hq] at hp
        exact absurd hp (by simp)
      | some g =>
        rw [send_packed ρ midibuf f d data w hc ho hp,
          send_packed ρ midibuf2 g d data w hc ho hq,
          pack_buffer data _ hmin midibuf f hp, pack_buffer data _ hmin midibuf2 g hq]

/-- Witness for C2: a negative item and an item above 255 are packed modulo 256. -/
theorem send_packs_first_1024_witness :
    sampleConnected.is_connected = true ∧ sampleConnected.is_output = true ∧
    Call.midi_event_encode (some 9) [144, 255, 127] ∈
      (Device_send allZero (fun _ => 0) sampleConnected [0x90, -1, 0x17F] sampleWorld).2.2.log.drop
        sampleWorld.log.length :=
  ⟨rfl, rfl,
    (send_packs_first_1024 allZero (fun _ => 0) sampleConnected [0x90, -1, 0x17F] sampleWorld
      rfl rfl).2.1 (by decide)⟩

/-- The packing loop succeeds only when every item it reads fits a C `long`. -/
theorem pack_fits (data : List Int) :
    ∀ (n i : Nat) (m f : Nat → Nat), Device_send_pack data n i m = some f →
      ∀ j, i ≤ j → j < i + n → LONG_MIN ≤ data.getD j 0 ∧ data.getD j 0 ≤ LONG_MAX := by
  intro n
  induction n with
  | zero => intro i m f _ j h1 h2; omega
  | succ n ih =>
    intro i m f h j h1 h2
    rw [Device_send_pack] at h
    cases hv : PyInt_AsLong (data.getD i 0) with
    | none => rw [hv] at h; exact absurd h (by simp)
    | some value =>
      rw [hv] at h
      by_cases hji : j = i
      · subst hji
        unfold PyInt_AsLong at hv
        split_ifs at hv with hfit
        exact hfit
      · exact ih (i + 1) _ f h j (by omega) (by omega)

/-- C10: on a connected output Device, when the encode succeeds (status not negative)
`send` dispatches the encoded event changed in three places only: its queue is
the Device's queue unless it asks for direct delivery, its source port is the
Device's local port, and its destination is "all subscribers" unless it is an
echo event.  When the encode fails nothing is dispatched and a device error is
reported.  When an item does not fit a C `long` the encoder is never reached.
The queue and port are stored in 8-bit fields, which keep every id in 0..255. -/
theorem send_dispatches_encoded_event (ρ : Nat → Resp) (midibuf : Nat → Nat) (d : Device)
    (data : List Int) (w : World) (hc : d.is_connected = true) (ho : d.is_output = true) :
    ((∀ x ∈ data.take 1024, LONG_MIN ≤ x ∧ x ≤ LONG_MAX) →
      0 ≤ (ρ (w.log.length + 1)).status →
      Device_send ρ midibuf d data w =
        (.returned (some .None) none, d,
          { w with log := w.log ++ [.midi_event_reset_encode d._codec,
              .midi_event_encode d._codec ((data.take 1024).map (fun v => (v % 256).toNat)),
              .event_output_direct d._seq
                { type := (ρ (w.log.length + 1)).event.type,
                  queue := if (ρ (w.log.length + 1)).event.queue ≠ SND_SEQ_QUEUE_DIRECT then
                      toUChar d._queue else SND_SEQ_QUEUE_DIRECT,
                  source := ⟨(ρ (w.log.length + 1)).event.source.client, toUChar d._seq_port⟩,
                  dest := if (ρ (w.log.length + 1)).event.type ≠ SND_SEQ_EVENT_ECHO then
                      ⟨SND_SEQ_ADDRESS_SUBSCRIBERS, SND_SEQ_ADDRESS_UNKNOWN⟩
                    else (ρ (w.log.length + 1)).event.dest,
                  tv_sec := (ρ (w.log.length + 1)).event.tv_sec,
                  tv_nsec := (ρ (w.log.length + 1)).event.tv_nsec,
                  payload := (ρ (w.log.length + 1)).event.payload }] })) ∧
    ((∀ x ∈ data.take 1024, LONG_MIN ≤ x ∧ x ≤ LONG_MAX) →
      (ρ (w.log.length + 1)).status < 0 →
      Device_send ρ midibuf d data w =
        (.returned none (some .DeviceError), d,
          { w with log := w.log ++ [.midi_event_reset_encode d._codec,
              .midi_event_encode d._codec ((data.take 1024).map (fun v => (v % 256).toNat))] })) ∧
    (¬ (∀ x ∈ data.take 1024, LONG_MIN ≤ x ∧ x ≤ LONG_MAX) →
      Device_send ρ midibuf d data w = (.returned none (some .OverflowError), d, w)) ∧
    (0 ≤ d._queue → d._queue < 256 → (toUChar d._queue : Int) = d._queue) ∧
    (0 ≤ d._seq_port → d._seq_port < 256 → (toUChar d._seq_port : Int) = d._seq_port) := by
  have hmin : min data.length 1024 ≤ data.length := Nat.min_le_left _ _
  have hall : (∀ x ∈ data.take 1024, LONG_MIN ≤ x ∧ x ≤ LONG_MAX) →
      ∀ j, 0 ≤ j → j < 0 + min data.length 1024 →
        LONG_MIN ≤ data.getD j 0 ∧ data.getD j 0 ≤ LONG_MAX := by
    intro hr j _ hj
    have h2 : j < data.length := by omega
    rw [List.getD_eq_getElem _ _ h2]
    apply hr
    rw [List.mem_take_iff_getElem]
    exact ⟨j, by omega, rfl⟩
  refine ⟨?_, ?_, ?_, ?_, ?_⟩
  · intro hr hs
    obtain ⟨f, hp⟩ := pack_total data _ 0 midibuf (hall hr)
    rw [send_packed ρ midibuf f d data w hc ho hp, pack_buffer data _ hmin midibuf f hp,
      take_min, if_neg (not_lt.mpr hs)]
    by_cases hq : (ρ (w.log.length + 1)).event.queue = SND_SEQ_QUEUE_DIRECT
    · simp [hq]
    · simp [hq]
  · intro hr hs
    obtain ⟨f, hp⟩ := pack_total data _ 0 midibuf (hall hr)
    rw [send_packed ρ midibuf f d data w hc ho hp, pack_buffer data _ hmin midibuf f hp,
      take_min, if_pos hs]
  · intro hr
    cases hp : Device_send_pack data (min data.length 1024) 0 midibuf with
    | none => exact send_unpacked ρ midibuf d data w hc ho hp
    | some f =>
      exfalso
      apply hr
      intro x hx
      rw [List.mem_take_iff_getElem] at hx
      obtain ⟨j, hj, rfl⟩ := hx
      have hj2 : j < data.length := by omega
      have := pack_fits data _ 0 midibuf f hp j (Nat.zero_le _) (by omega)
      rwa [List.getD_eq_getElem _ _ hj2] at this
  · intro h1 h2
    unfold toUChar
    rw [Int.emod_eq_of_lt h1 h2, Int.toNat_of_nonneg h1]
  · intro h1 h2
    unfold toUChar
    rw [Int.emod_eq_of_lt h1 h2, Int.toNat_of_nonneg h1]

/-- Witness for C10: a note-on is sent on the Device's queue 1 from its local
port 2 to all subscribers. -/
theorem send_dispatches_encoded_event_witness :
    Device_send encodesNoteOn (fun _ => 0) sampleConnected [0x90, 0x40, 0x7F] sampleWorld =
      (.returned (some .None) none, sampleConnected,
        { sampleWorld with log := [.seq_open 3, .midi_event_reset_encode (some 9),
            .midi_event_encode (some 9) [0x90, 0x40, 0x7F],
            .event_output_direct (some 0)
              { noteOn with queue := 1, source := ⟨0, 2⟩, dest := ⟨254, 253⟩ }] }) :=
  (send_dispatches_encoded_event encodesNoteOn (fun _ => 0) sampleConnected [0x90, 0x40, 0x7F]
    sampleWorld rfl rfl).1 (by decide) (by decide)

/-! ### `connect` -/

theorem connect_port_fields (ρ : Nat → Resp) (d : Device) (w : World) :
    (Device_connect_port ρ d w).1.is_connected = d.is_connected ∧
    (Device_connect_port ρ d w).1._seq = d._seq ∧
    (Device_connect_port ρ d w).1._queue = d._queue ∧
    (Device_connect_port ρ d w).2.opened = w.opened := by
  unfold Device_connect_port
  refine ⟨rfl, rfl, rfl, ?_⟩
  dsimp only
  split_ifs <;> rfl

/-- A call of `Device.connect` that returns an object leaves the Device
connected. -/
theorem connect_success_connected (ρ : Nat → Resp) (d : Device) (w : World)
    (h : (Device_connect ρ d w).1.isSuccess = true) :
    (Device_connect ρ d w).2.1.is_connected = true := by
  by_cases hc : d.is_connected = true
  · simp [Device_connect, hc]
  · unfold Device_connect Device_connect_start at h ⊢
    simp only [hc] at h ⊢
    split_ifs at h ⊢ <;> simp_all [Outcome.isSuccess]

/-- C4: on a Device with `is_connected` set, `connect` returns success, makes no
library call and leaves the Device and the world as they were; hence when a
first `connect` has succeeded, a second one right after it changes nothing:
the setup calls are those of the first call alone. -/
theorem connect_idempotent (ρ ρ2 : Nat → Resp) (d : Device) (w : World) :
    (d.is_connected = true →
      Device_connect ρ d w = (.returned (some .None) none, d, w)) ∧
    ((Device_connect ρ d w).1.isSuccess = true →
      Device_connect ρ2 (Device_connect ρ d w).2.1 (Device_connect ρ d w).2.2 =
        (.returned (some .None) none, (Device_connect ρ d w).2.1, (Device_connect ρ d w).2.2)) := by
  have key : ∀ (σ : Nat → Resp) (x : Device) (v : World), x.is_connected = true →
      Device_connect σ x v = (.returned (some .None) none, x, v) := by
    intro σ x v hx
    unfold Device_connect
    rw [if_pos hx]
  exact ⟨key ρ d w, fun h => key ρ2 _ _ (connect_success_connected ρ d w h)⟩

/-- Witness for C4: a new Device connects under a library that answers 0 to
every call, with eight library calls; connecting again adds none. -/
theorem connect_idempotent_witness :
    (Device_connect allZero Device_new emptyWorld).2.2.log.length = 8 ∧
    Device_connect allZero (Device_connect allZero Device_new emptyWorld).2.1
        (Device_connect allZero Device_new emptyWorld).2.2 =
      (.returned (some .None) none, (Device_connect allZero Device_new emptyWorld).2.1,
        (Device_connect allZero Device_new emptyWorld).2.2) ∧
    Device_connect allZero sampleConnected sampleWorld =
      (.returned (some .None) none, sampleConnected, sampleWorld) :=
  ⟨by decide,
    (connect_idempotent allZero allZero Device_new emptyWorld).2 (by decide),
    (connect_idempotent allZero allZero sampleConnected sampleWorld).1 rfl⟩

/-! ### `receive` -/

/-- C5: on a connected input Device, when the pending-input query answers that
nothing is pending (status 0 or below), `receive` returns `None` with no error,
makes that one query and no other library call (so dequeues nothing), and
leaves the Device unchanged; polling any number of times while the queries
keep answering so returns `None` every time. -/
theorem receive_nothing_pending (ρ : Nat → Resp) (d : Device) (w : World)
    (hc : d.is_connected = true) (hi : d.is_input = true) :
    ((ρ w.log.length).status ≤ 0 →
      Device_receive ρ d w =
        (.returned (some .None) none, d,
          { w with log := w.log ++ [.event_input_pending d._seq 1] })) ∧
    (∀ n, (∀ k, k < n → (ρ (w.log.length + k)).status ≤ 0) →
      receive_repeat ρ n d w =
        (List.replicate n (.returned (some .None) none), d,
          { w with log := w.log ++ List.replicate n (.event_input_pending d._seq 1) })) := by
  have one : ∀ v : World, (ρ v.log.length).status ≤ 0 →
      Device_receive ρ d v =
        (.returned (some .None) none, d,
          { v with log := v.log ++ [.event_input_pending d._seq 1] }) := by
    intro v hp
    unfold Device_receive
    simp [hc, hi, hp, call]
  refine ⟨one w, ?_⟩
  intro n
  induction n generalizing w with
  | zero => intro _; simp [receive_repeat]
  | succ n ih =>
    intro h
    have h0 := h 0 (Nat.succ_pos n)
    rw [Nat.add_zero] at h0
    have hrest := ih { w with log := w.log ++ [.event_input_pending d._seq 1] }
      (by
        intro k hk
        have := h (k + 1) (by omega)
        simpa [Nat.add_assoc, Nat.add_comm 1 k] using this)
    simp only [receive_repeat, one w h0, hrest]
    simp [List.replicate_succ]

/-- Witness for C5: three polls in a row of a connected input Device with
nothing pending. -/
theorem receive_nothing_pending_witness :
    Device_receive allZero sampleConnected sampleWorld =
      (.returned (some .None) none, sampleConnected,
        { sampleWorld with log := [.seq_open 3, .event_input_pending (some 0) 1] }) ∧
    receive_repeat allZero 3 sampleConnected sampleWorld =
      (List.replicate 3 (.returned (some .None) none), sampleConnected,
        { sampleWorld with
          log := sampleWorld.log ++ List.replicate 3 (.event_input_pending (some 0) 1) }) :=
  ⟨(receive_nothing_pending allZero sampleConnected sampleWorld rfl rfl).1 (by decide),
    (receive_nothing_pending allZero sampleConnected sampleWorld rfl rfl).2 3
      (fun _ _ => Int.le_refl 0)⟩

/-- C6 (the code at the failing input): on a connected input Device with an
event pending and dequeued, a decode that answers the negative status -2 does
not end in a device error: the status is stored in an unsigned `size_t`, the
test `bytes < 0` never holds, and the call runs on into a memory fault. -/
theorem receive_decode_failure_not_reported :
    Device_receive (answers [0, 1, 0, 0, -2]) sampleConnected sampleWorld =
      (.fault, sampleConnected,
        { sampleWorld with log := [.seq_open 3, .event_input_pending (some 0) 1,
            .event_input (some 0), .midi_event_reset_decode (some 9),
            .midi_event_decode (some 9) 1024 zeroEvent] }) ∧
    (Device_receive (answers [0, 1, 0, 0, -2]) sampleConnected sampleWorld).1.isDeviceError
      = false := by
  constructor <;> decide

/-- C7 (counterexample): with the session opened and the first next-client query
answering "no client" (-2), `get_devices` closes the session and reports a
device error; it does not return the empty list. -/
theorem get_devices_no_clients_counterexample :
    alsamidi_get_devices (answers [0, -2]) 10 emptyWorld =
      some (.returned none (some .DeviceError),
        { opened := [], log := [.seq_open 2, .query_next_client (some 0) (-1),
            .seq_close (some 0)], warnings := 0 }) ∧
    (alsamidi_get_devices (answers [0, -2]) 10 emptyWorld).map Prod.fst ≠
      some (.returned (some (.list [])) none) := by
  constructor <;> decide

/-- C7 (amended): when the session opens and the first next-client query yields no
client (negative status), `get_devices` returns, having made three library
calls (open, the query, close), with the transient session closed, and reports
a device error. -/
theorem get_devices_no_clients_device_error (ρ : Nat → Resp) (fuel : Nat) (w : World)
    (ho : 0 ≤ (ρ w.log.length).status) (hq : (ρ (w.log.length + 1)).status < 0) :
    alsamidi_get_devices ρ (fuel + 1) w =
      some (.returned none (some .DeviceError),
        { opened := (w.log.length :: w.opened).filter (fun k => k != w.log.length),
          log := w.log ++ [.seq_open SND_SEQ_OPEN_INPUT,
            .query_next_client (some w.log.length) (-1), .seq_close (some w.log.length)],
          warnings := w.warnings }) := by
  unfold alsamidi_get_devices _open_sequencer snd_seq_open
  simp [not_lt.mpr ho, call, get_devices_scan, hq, not_le.mpr hq, snd_seq_close]

/-- Witness for C7 (amended). -/
theorem get_devices_no_clients_device_error_witness :
    alsamidi_get_devices (answers [0, -2]) 1 emptyWorld =
      some (.returned none (some .DeviceError),
        { opened := [], log := [.seq_open 2, .query_next_client (some 0) (-1),
            .seq_close (some 0)], warnings := 0 }) :=
  get_devices_no_clients_device_error (answers [0, -2]) 0 emptyWorld (by decide) (by decide)

/-- C8 (the code at the failing input): a new Device connects (every call answers
0), so it holds an open persistent session; a probe whose port-info query then
fails (-2) closes that session, while the Device still holds the handle and
still says it is connected. -/
theorem probe_failure_closes_persistent_session :
    sessionOpen (Device_connect (answers []) Device_new emptyWorld).2.1._seq
      (Device_connect (answers []) Device_new emptyWorld).2.2 = true ∧
    (Device_probe (answers [0, 0, 0, 0, 0, 0, 0, 0, -2])
      (Device_connect (answers []) Device_new emptyWorld).2.1
      (Device_connect (answers []) Device_new emptyWorld).2.2).2 =
      ({ Device_new with
          is_connected := true, _seq := some 0, _queue := 0, _codec := some 7 },
        { opened := [],
          log := [.seq_open 3, .alloc_queue (some 0), .create_simple_port (some 0) 99 1048576,
            .get_port_info (some 0) 0, .set_port_info (some 0) 0 true 0 true,
            .start_queue (some 0) 0, .drain_output (some 0), .midi_event_new 1024,
            .get_any_port_info (some 0) 0 0, .seq_close (some 0)],
          warnings := 0 }) ∧
    sessionOpen (some 0)
      (Device_probe (answers [0, 0, 0, 0, 0, 0, 0, 0, -2])
        (Device_connect (answers []) Device_new emptyWorld).2.1
        (Device_connect (answers []) Device_new emptyWorld).2.2).2.2 = false := by
  refine ⟨?_, ?_, ?_⟩ <;> decide

/-- C9 (the code at the failing input): a probe of a new Device (client 128, port
0) whose port-info query fails (-2) returns the object `None`, not `NULL`: the
device error is set but not reported through the result.  The flags are
unchanged and the transient session is closed. -/
theorem probe_failure_returns_none :
    Device_probe (answers [0, -2]) (Device_init Device_new none (some 128) (some 0)) emptyWorld =
      (.returned (some .None) (some .DeviceError),
        Device_init Device_new none (some 128) (some 0),
        { opened := [], log := [.seq_open 2, .get_any_port_info (some 0) 128 0,
            .seq_close (some 0)], warnings := 0 }) ∧
    (Device_probe (answers [0, -2]) (Device_init Device_new none (some 128) (some 0))
      emptyWorld).1.isDeviceError = false := by
  constructor <;> decide

/-! ### What each method does to the session -/

theorem close_not_open (ρ : Nat → Resp) (seq : Ptr) (w : World) :
    sessionOpen seq (snd_seq_close ρ seq w) = false := by
  cases seq with
  | none => rfl
  | some h => simp [sessionOpen, snd_seq_close, call]

theorem close_stays_closed (ρ : Nat → Resp) (seq seq2 : Ptr) (w : World)
    (h : sessionOpen seq w = false) : sessionOpen seq (snd_seq_close ρ seq2 w) = false := by
  cases seq with
  | none => rfl
  | some k =>
    cases seq2 with
    | none => simpa [sessionOpen, snd_seq_close, call] using h
    | some k2 =>
      simp only [sessionOpen, snd_seq_close, call] at h ⊢
      simp only [List.contains_eq_any_beq, List.any_eq_false, List.mem_filter] at h ⊢
      intro x hx
      exact h x hx.1

theorem sessionOpen_congr (seq : Ptr) (w w2 : World) (h : w2.opened = w.opened) :
    sessionOpen seq w2 = sessionOpen seq w := by
  cases seq with
  | none => rfl
  | some k => simp [sessionOpen, h]

/-- The method `probe` changes the two capability flags only, and never opens the
session the Device holds. -/
theorem probe_preserves (ρ : Nat → Resp) (d : Device) (w : World) :
    (Device_probe ρ d w).2.1.is_connected = d.is_connected ∧
    (Device_probe ρ d w).2.1._seq = d._seq ∧
    (Device_probe ρ d w).2.1._queue = d._queue ∧
    (sessionOpen d._seq w = false → sessionOpen d._seq (Device_probe ρ d w).2.2 = false) := by
  have hfields : (Device_probe ρ d w).2.1.is_connected = d.is_connected ∧
      (Device_probe ρ d w).2.1._seq = d._seq ∧ (Device_probe ρ d w).2.1._queue = d._queue := by
    unfold Device_probe
    dsimp only
    cases (_get_port_info ρ d w).1 <;> exact ⟨rfl, rfl, rfl⟩
  have hworld : (Device_probe ρ d w).2.2 = (_get_port_info ρ d w).2 := by
    unfold Device_probe
    dsimp only
    cases (_get_port_info ρ d w).1 <;> rfl
  refine ⟨hfields.1, hfields.2.1, hfields.2.2, ?_⟩
  intro hclosed
  rw [hworld]
  cases hs : d._seq with
  | none => rfl
  | some h =>
    rw [hs] at hclosed
    unfold _get_port_info
    simp only [hs, reduceCtorEq, if_false, ne_eq, not_true_eq_false]
    have hq : sessionOpen (some h)
        (call ρ (Call.get_any_port_info (some h) d.client d.port) w).2 = false :=
      hclosed
    split_ifs
    · exact close_stays_closed ρ _ _ _ hq
    · exact hq

theorem send_preserves (ρ : Nat → Resp) (midibuf : Nat → Nat) (d : Device) (data : List Int)
    (w : World) :
    (Device_send ρ midibuf d data w).2.1 = d ∧
    (Device_send ρ midibuf d data w).2.2.opened = w.opened := by
  by_cases h : d.is_connected = true ∧ d.is_output = true
  · cases hp : Device_send_pack data (min data.length 1024) 0 midibuf with
    | none => rw [send_unpacked ρ midibuf d data w h.1 h.2 hp]; exact ⟨rfl, rfl⟩
    | some f =>
      rw [send_packed ρ midibuf f d data w h.1 h.2 hp]
      split_ifs <;> exact ⟨rfl, rfl⟩
  · rw [send_refused ρ midibuf d data w h]
    exact ⟨rfl, rfl⟩

theorem receive_preserves (ρ : Nat → Resp) (d : Device) (w : World) :
    (Device_receive ρ d w).2.1 = d ∧ (Device_receive ρ d w).2.2.opened = w.opened := by
  unfold Device_receive
  dsimp only
  split_ifs
  all_goals first
    | exact ⟨rfl, rfl⟩
    | (split <;> exact ⟨rfl, rfl⟩)

theorem open_fails (ρ : Nat → Resp) (mode : Nat) (w : World)
    (h : (ρ w.log.length).status < 0) :
    _open_sequencer ρ mode w = (none, { w with log := w.log ++ [.seq_open mode] }) := by
  unfold _open_sequencer snd_seq_open
  simp [call, h]

theorem open_succeeds (ρ : Nat → Resp) (mode : Nat) (w : World)
    (h : 0 ≤ (ρ w.log.length).status) :
    _open_sequencer ρ mode w =
      (some w.log.length,
        { opened := w.log.length :: w.opened, log := w.log ++ [.seq_open mode],
          warnings := w.warnings }) := by
  unfold _open_sequencer snd_seq_open
  simp [call, not_lt.mpr h]

theorem connect_port_log (ρ : Nat → Resp) (d : Device) (w : World) :
    (Device_connect_port ρ d w).2.log.length =
      w.log.length + 3 + (if d.is_input then 1 else 0) + (if d.is_output then 1 else 0) := by
  unfold Device_connect_port
  dsimp only
  split_ifs <;> simp

theorem connect_port_port (ρ : Nat → Resp) (d : Device) (w : World) :
    (Device_connect_port ρ d w).1 = { d with _seq_port := (ρ w.log.length).status } := rfl

theorem connect_start_fails (ρ : Nat → Resp) (d : Device) (w : World)
    (h : (ρ w.log.length).status < 0) :
    Device_connect_start ρ d w =
      (.returned none (some .DeviceError), d,
        snd_seq_close ρ d._seq (call ρ (.start_queue d._seq d._queue) w).2) := by
  unfold Device_connect_start
  simp [h]

theorem connect_start_succeeds (ρ : Nat → Resp) (d : Device) (w : World)
    (h : 0 ≤ (ρ w.log.length).status) :
    (Device_connect_start ρ d w).1 = .returned (some .None) none ∧
    (Device_connect_start ρ d w).2.1 =
      { d with
        _codec := if (ρ (w.log.length + 2)).status < 0 then none else some (w.log.length + 2),
        is_connected := true } ∧
    (Device_connect_start ρ d w).2.2.opened = w.opened := by
  unfold Device_connect_start snd_midi_event_new
  simp only [call_answer, not_lt.mpr h, if_false, call_log, List.length_append,
    List.length_singleton]
  by_cases hm : (ρ (w.log.length + 1 + 1)).status < 0
  · simp [hm]
  · simp [hm]

/-- What `connect` does on an unconnected Device, by the answers to the three
calls whose status it checks. -/
theorem connect_unconnected (ρ : Nat → Resp) (d : Device) (w : World)
    (hc : d.is_connected = false) :
    ((ρ w.log.length).status < 0 ∨ (ρ (w.log.length + 1)).status < 0 ∨
        (ρ (startIndex d w)).status < 0 →
      (Device_connect ρ d w).1 = .returned none (some .DeviceError) ∧
      (Device_connect ρ d w).2.1.is_connected = false ∧
      sessionOpen (Device_connect ρ d w).2.1._seq (Device_connect ρ d w).2.2 = false) ∧
    (0 ≤ (ρ w.log.length).status ∧ 0 ≤ (ρ (w.log.length + 1)).status ∧
        0 ≤ (ρ (startIndex d w)).status →
      (Device_connect ρ d w).1 = .returned (some .None) none ∧
      (Device_connect ρ d w).2.1.is_connected = true ∧
      (Device_connect ρ d w).2.1._seq = some w.log.length ∧
      sessionOpen (Device_connect ρ d w).2.1._seq (Device_connect ρ d w).2.2 = true ∧
      (Device_connect ρ d w).2.1._queue = (ρ (w.log.length + 1)).status ∧
      (Device_connect ρ d w).2.1._seq_port = (ρ (w.log.length + 2)).status ∧
      ((Device_connect ρ d w).2.1._codec = none ↔ (ρ (startIndex d w + 2)).status < 0)) := by
  unfold Device_connect
  rw [if_neg (by simp [hc])]
  dsimp only
  by_cases h0 : (ρ w.log.length).status < 0
  · rw [open_fails ρ _ w h0]
    simp [h0, hc, sessionOpen]
  · rw [open_succeeds ρ _ w (not_lt.mp h0)]
    simp only [reduceCtorEq, if_false, call_answer, List.length_append, List.length_singleton]
    by_cases h1 : (ρ (w.log.length + 1)).status < 0
    · rw [if_pos h1]
      simp [h0, h1, hc, close_not_open]
    · rw [if_neg h1]
      generalize hw2 : (call ρ (Call.alloc_queue (some w.log.length))
        { opened := w.log.length :: w.opened,
          log := w.log ++ [Call.seq_open (SND_SEQ_OPEN_DUPLEX ||| SND_SEQ_NONBLOCK)],
          warnings := w.warnings }).2 = w2
      have hw2log : w2.log.length = w.log.length + 2 := by
        rw [← hw2]; simp
      have hw2open : w2.opened = w.log.length :: w.opened := by
        rw [← hw2]; rfl
      generalize hd2 : ({ d with
        _seq := some w.log.length, _queue := (ρ (w.log.length + 1)).status } : Device) = d2
      have hd2c : d2.is_connected = false := by rw [← hd2]; exact hc
      have hP := connect_port_fields ρ d2 w2
      have hPlog : (Device_connect_port ρ d2 w2).2.log.length = startIndex d w := by
        rw [connect_port_log, hw2log, ← hd2]
        unfold startIndex
        dsimp only
      have hPport := connect_port_port ρ d2 w2
      generalize Device_connect_port ρ d2 w2 = P at hP hPlog hPport
      obtain ⟨hP1, hP2, hP3, hP4⟩ := hP
      have hseq : P.1._seq = some w.log.length := by rw [hP2, ← hd2]
      have hqueue : P.1._queue = (ρ (w.log.length + 1)).status := by rw [hP3, ← hd2]
      by_cases h2 : (ρ (startIndex d w)).status < 0
      · rw [connect_start_fails ρ P.1 P.2 (by rw [hPlog]; exact h2)]
        refine ⟨fun _ => ⟨rfl, by rw [hP1]; exact hd2c, close_not_open ρ _ _⟩, ?_⟩
        intro h
        omega
      · have hS := connect_start_succeeds ρ P.1 P.2 (by rw [hPlog]; exact not_lt.mp h2)
        generalize Device_connect_start ρ P.1 P.2 = S at hS
        obtain ⟨hS1, hS2, hS3⟩ := hS
        refine ⟨fun h => ?_, fun _ => ?_⟩
        · omega
        · refine ⟨hS1, by rw [hS2], by rw [hS2]; exact hseq, ?_, by rw [hS2]; exact hqueue,
            ?_, ?_⟩
          · rw [hS2]
            simp [sessionOpen, hseq, hS3, hP4, hw2open]
          · rw [hS2, hPport, hw2log]
          · rw [hS2, hPlog]
            by_cases hm : (ρ (startIndex d w + 2)).status < 0 <;> simp [hm]

/-! ### The connection invariant -/

/-- In every reachable state: an unconnected Device has no open session, and a
connected one holds a session handle and a queue id that is not negative. -/
theorem reachable_invariant (d : Device) (w : World) (h : Reachable d w) :
    (d.is_connected = false → sessionOpen d._seq w = false) ∧
    (d.is_connected = true → d._seq ≠ none ∧ 0 ≤ d._queue) := by
  induction h with
  | constructed name client port w =>
    exact ⟨fun _ => rfl, fun hc => absurd hc (by simp [Device_init, PyType_GenericNew])⟩
  | enumerated a w =>
    exact ⟨fun _ => rfl, fun hc => absurd hc (by simp [_update_from_port_info, Device_new])⟩
  | step ρ op d w _ ih =>
    cases op with
    | probe =>
      obtain ⟨h1, h2, h3, h4⟩ := probe_preserves ρ d w
      simp only [step]
      rw [h1, h2, h3]
      exact ⟨fun hc => h4 (ih.1 hc), ih.2⟩
    | connect =>
      simp only [step]
      cases hc : d.is_connected with
      | true =>
        have : Device_connect ρ d w = (.returned (some .None) none, d, w) := by
          unfold Device_connect
          rw [if_pos hc]
        rw [this]
        exact ih
      | false =>
        obtain ⟨hfail, hok⟩ := connect_unconnected ρ d w hc
        by_cases hs : (ρ w.log.length).status < 0 ∨ (ρ (w.log.length + 1)).status < 0 ∨
            (ρ (startIndex d w)).status < 0
        · obtain ⟨_, h2, h3⟩ := hfail hs
          exact ⟨fun _ => h3, fun hcon => absurd hcon (by simp [h2])⟩
        · have hs2 : 0 ≤ (ρ w.log.length).status ∧ 0 ≤ (ρ (w.log.length + 1)).status ∧
              0 ≤ (ρ (startIndex d w)).status := by
            refine ⟨?_, ?_, ?_⟩ <;> by_contra hneg <;> exact hs (by simp [not_le.mp hneg])
          obtain ⟨_, h2, h3, _, h5, _⟩ := hok hs2
          refine ⟨fun hcon => absurd hcon (by simp [h2]), fun _ => ⟨by simp [h3], ?_⟩⟩
          rw [h5]
          exact hs2.2.1
    | send midibuf data =>
      obtain ⟨h1, h2⟩ := send_preserves ρ midibuf d data w
      simp only [step]
      rw [h1, sessionOpen_congr _ w _ h2]
      exact ih
    | receive =>
      obtain ⟨h1, h2⟩ := receive_preserves ρ d w
      simp only [step]
      rw [h1, sessionOpen_congr _ w _ h2]
      exact ih
    | set_name v => exact ih
    | set_client v => exact ih
    | set_port v => exact ih

/-- C3 (the code at the failing input): a Device constructed with no arguments
connects under a library in which the port creation and the codec allocation
fail (-12) while the three calls whose status is checked succeed.  The call
returns success and sets `is_connected` although a step of it failed, with an
invalid local port and no codec: a reachable state in which the flag is set
and the four resources are not all valid. -/
theorem connect_sets_flag_without_port_or_codec :
    Reachable
      (Device_connect (answers [0, 0, -12, 0, 0, 0, 0, -12])
        (Device_init PyType_GenericNew none none none) emptyWorld).2.1
      (Device_connect (answers [0, 0, -12, 0, 0, 0, 0, -12])
        (Device_init PyType_GenericNew none none none) emptyWorld).2.2 ∧
    Device_connect (answers [0, 0, -12, 0, 0, 0, 0, -12])
        (Device_init PyType_GenericNew none none none) emptyWorld =
      (.returned (some .None) none,
        { PyType_GenericNew with
          is_connected := true, _seq := some 0, _seq_port := -12, _queue := 0, _codec := none },
        { opened := [0],
          log := [.seq_open 3, .alloc_queue (some 0), .create_simple_port (some 0) 99 1048576,
            .get_port_info (some 0) (-12), .set_port_info (some 0) (-12) true 0 true,
            .start_queue (some 0) 0, .drain_output (some 0), .midi_event_new 1024],
          warnings := 0 }) ∧
    ¬ ((Device_connect (answers [0, 0, -12, 0, 0, 0, 0, -12])
          (Device_init PyType_GenericNew none none none) emptyWorld).2.1.is_connected = true ↔
        allValid
          (Device_connect (answers [0, 0, -12, 0, 0, 0, 0, -12])
            (Device_init PyType_GenericNew none none none) emptyWorld).2.1
          (Device_connect (answers [0, 0, -12, 0, 0, 0, 0, -12])
            (Device_init PyType_GenericNew none none none) emptyWorld).2.2 = true) :=
  ⟨Reachable.step (answers [0, 0, -12, 0, 0, 0, 0, -12]) .connect
      (Device_init PyType_GenericNew none none none) emptyWorld
      (Reachable.constructed none none none emptyWorld),
    by decide, by decide⟩

end Alsamidi
